import Mathlib

/-!
Shallow embedding of the archstats core (archiver-appliance statistics IOC):
value coercion (`archiver_literal_eval`, `FLOAT_KEYS`), document creation
with NaN substitution (`DatabaseHandler.create_document` / `replace_nan`),
restore (`restore_from_document`), the reconciliation step
(`Archstats._update_group` and the `updater` loop), the TTL request cache
(`Request.make`) and dynamic group construction
(`JSONRequestGroup.from_request` / `create_pvproperty`).

Pure Python functions become Lean functions; stateful code is explicit state
passing; Python exceptions are `Except`/`Option` results.  External library
behaviour (`ast.literal_eval`, `float()`, `str.isidentifier`, the built-in
string `hash`) is modelled by explicitly documented fragments sufficient for
the metrics-value grammar the program processes.
-/

namespace Archstats

/-- Python float values as the program sees them: finite values modelled
exactly as rationals, plus the IEEE specials NaN, +inf and -inf. -/
inductive PyFloat where
  | nan
  | inf
  | ninf
  | finite (q : ℚ)
deriving DecidableEq, Repr

/-- The Python values flowing through the program: bool, int, float, str
(the tagged union the metrics transformers produce). -/
inductive PyValue where
  | bool (b : Bool)
  | int (n : Int)
  | float (f : PyFloat)
  | str (s : String)
deriving DecidableEq, Repr

/-- math.isnan as used by DatabaseHandler.replace_nan (true only on NaN,
never on infinities or finite values). -/
def isnanB : PyFloat → Bool
  | PyFloat.nan => true
  | _ => false

/-- Decimal digits folded into a natural number. -/
def parse_nat_digits (l : List Char) : Nat :=
  l.foldl (fun a c => a * 10 + (c.toNat - 48)) 0

/-- Strip an optional leading minus sign. -/
def int_core (l : List Char) : List Char :=
  match l with
  | '-' :: rest => rest
  | _ => l

/-- Split a character list at dots (for the float-literal grammar). -/
def split_on_dot : List Char → List Char → List (List Char)
  | [], acc => [acc.reverse]
  | '.' :: rest, acc => acc.reverse :: split_on_dot rest []
  | c :: rest, acc => split_on_dot rest (c :: acc)

/-- Model of the Python int-literal grammar accepted by ast.literal_eval:
optional minus sign, decimal digits, no leading zero (Python 3 rejects 007).
Exponent-free fragment, sufficient for the metrics values. -/
def is_int_literal (s : String) : Bool :=
  let core := int_core s.data
  !core.isEmpty && core.all Char.isDigit &&
    ((core.length == 1) || (core.headD '0' != '0'))

/-- Integer value of an int literal. -/
def parse_int (s : String) : Int :=
  match s.data with
  | '-' :: rest => - (parse_nat_digits rest : Int)
  | l => (parse_nat_digits l : Int)

/-- Model of the Python float-literal grammar (fragment): optional minus,
digits, one dot, digits, with at least one digit overall. -/
def is_float_literal (s : String) : Bool :=
  match split_on_dot (int_core s.data) [] with
  | [a, b] => a.all Char.isDigit && b.all Char.isDigit && (!a.isEmpty || !b.isEmpty)
  | _ => false

/-- Rational value of a float literal. -/
def parse_float (s : String) : ℚ :=
  let neg : Bool := match s.data with | '-' :: _ => true | _ => false
  let q : ℚ :=
    match split_on_dot (int_core s.data) [] with
    | [a, b] => (parse_nat_digits a : ℚ) + (parse_nat_digits b : ℚ) / ((10 : ℚ) ^ b.length)
    | _ => (parse_nat_digits (int_core s.data) : ℚ)
  if neg then -q else q

/-- Model of ast.literal_eval on the value grammar the archiver metrics
produce: True/False, decimal ints, simple decimal floats.  Anything else
raises ValueError/SyntaxError in Python, modelled as none. -/
def literal_eval (s : String) : Option PyValue :=
  if s = "True" then some (PyValue.bool true)
  else if s = "False" then some (PyValue.bool false)
  else if is_int_literal s then some (PyValue.int (parse_int s))
  else if is_float_literal s then some (PyValue.float (PyFloat.finite (parse_float s)))
  else none

/-- RE_NUMBER_WITH_COMMA from archstats.py, the regex ^[0-9,.]+$ :
one or more characters, each a digit, a comma or a dot. -/
def re_number_with_comma_match (s : String) : Bool :=
  !s.data.isEmpty && s.data.all (fun c => c.isDigit || c == ',' || c == '.')

/-- value.replace(",", "") on a string: drop every comma. -/
def strip_commas (s : String) : String :=
  String.mk (s.data.filter (fun c => c != ','))

/-- archiver_literal_eval from archstats.py: the literal "NaN" maps to
float nan; a string matching RE_NUMBER_WITH_COMMA has its commas stripped;
then a safe literal parse; on parse failure the (comma-stripped) string
itself is returned. -/
def archiver_literal_eval (value : String) : PyValue :=
  if value = "NaN" then PyValue.float PyFloat.nan
  else
    let value2 := if re_number_with_comma_match value then strip_commas value else value
    match literal_eval value2 with
    | some v => v
    | none => PyValue.str value2

/-- FLOAT_KEYS from archstats.py: keys whose values are forced to float. -/
def FLOAT_KEYS : List String :=
  ["time_copy_data_into_store",
   "time_copy_data_into_store_percent",
   "aggregated_appliance_event_rate_in_events_per_sec",
   "benchmark_writing_at_mb_per_sec",
   "data_rate_in_mb_per_year",
   "data_rate_in_gb_per_year"]

/-- Model of Python float() applied to program values (numeric-string
fragment; a non-numeric string raises ValueError, modelled as none). -/
def py_float_of : PyValue → Option PyValue
  | PyValue.bool b => some (PyValue.float (PyFloat.finite (if b then 1 else 0)))
  | PyValue.int n => some (PyValue.float (PyFloat.finite (n : ℚ)))
  | PyValue.float f => some (PyValue.float f)
  | PyValue.str s =>
    if s = "NaN" || s = "nan" then some (PyValue.float PyFloat.nan)
    else if is_float_literal s then some (PyValue.float (PyFloat.finite (parse_float s)))
    else if is_int_literal s then some (PyValue.float (PyFloat.finite ((parse_int s : Int) : ℚ)))
    else none

/-- _maybe_make_float from archstats.py: values of keys in FLOAT_KEYS are
passed through float(). -/
def maybe_make_float (key : String) (value : PyValue) : Option PyValue :=
  if key ∈ FLOAT_KEYS then py_float_of value else some value

/-- The value coercion the transformers apply to each raw metric value:
float-key override composed with archiver_literal_eval (the spec's
`coerce(key, rawString)`). -/
def coerce (key : String) (raw : String) : Option PyValue :=
  maybe_make_float key (archiver_literal_eval raw)

/-- DatabaseHandler.replace_nan: math.isnan check (TypeError on
non-numeric values swallowed, leaving the value unchanged); NaN is
replaced by the class NAN_VALUE. -/
def replace_nan (nanValue : PyValue) : PyValue → PyValue
  | PyValue.float f => if isnanB f then nanValue else PyValue.float f
  | v => v

/-- DatabaseHandler.NAN_VALUE (base class): math.nan. -/
def DatabaseHandler_NAN_VALUE : PyValue := PyValue.float PyFloat.nan

/-- ElasticHandler.NAN_VALUE: the elastic backend stores 0.0 for NaN. -/
def ElasticHandler_NAN_VALUE : PyValue := PyValue.float (PyFloat.finite 0)

/-- One pvproperty instance: attribute name, current value, timestamp of
the last write (the caproto ChannelData the handlers iterate over). -/
structure ChannelData where
  attr : String
  value : PyValue
  timestamp : ℚ
deriving DecidableEq, Repr

/-- A persisted document: one field per instance plus a single timestamp. -/
structure Document where
  fields : List (String × PyValue)
  timestamp : ℚ
deriving DecidableEq, Repr

/-- get_latest_timestamp: maximum of the instances' timestamps. -/
def max_timestamp : List ChannelData → ℚ
  | [] => 0
  | c :: rest => rest.foldl (fun a d => max a d.timestamp) c.timestamp

/-- DatabaseHandler.create_document: one field per instance with NaN
replaced by NAN_VALUE; none when there are no instances (the Python code
returns None for an empty document); stamped with the latest timestamp. -/
def create_document (nanValue : PyValue) (instances : List ChannelData) : Option Document :=
  match instances with
  | [] => none
  | c :: rest =>
    some { fields := (c :: rest).map fun ch => (ch.attr, replace_nan nanValue ch.value),
           timestamp := max_timestamp (c :: rest) }

/-- Helper: index l1.length of l1 ++ x :: l2 is x. -/
theorem get_after_append {α : Type} (l1 : List α) (x : α) (l2 : List α) :
    (l1 ++ x :: l2).get? l1.length = some x := by
  induction l1 with
  | nil => rfl
  | cons a t ih => simpa using ih

/-- Helper: create_document on a nonempty instance list maps replace_nan
over every field. -/
theorem create_document_eq (nv : PyValue) (l : List ChannelData) (hl : l ≠ []) :
    create_document nv l =
      some ⟨l.map (fun ch => (ch.attr, replace_nan nv ch.value)), max_timestamp l⟩ := by
  cases l with
  | nil => exact absurd rfl hl
  | cons c rest => rfl

/-- C9: coercion treats thousands separators as absent for purely numeric
strings — coerce "160,732" and coerce "160732" both yield Int 160732 for
every key outside the forced-float override set. -/
theorem C9_theorem (k : String) (hk : k ∉ FLOAT_KEYS) :
    coerce k "160,732" = some (PyValue.int 160732) ∧
    coerce k "160732" = some (PyValue.int 160732) := by
  have h1 : archiver_literal_eval "160,732" = PyValue.int 160732 := by decide
  have h2 : archiver_literal_eval "160732" = PyValue.int 160732 := by decide
  constructor
  · simp [coerce, maybe_make_float, hk, h1]
  · simp [coerce, maybe_make_float, hk, h2]

/-- C9 witness: the property at the concrete key "pv_count". -/
theorem C9_witness :
    coerce "pv_count" "160,732" = some (PyValue.int 160732) ∧
    coerce "pv_count" "160732" = some (PyValue.int 160732) :=
  C9_theorem "pv_count" (by decide)

/-- C4 counterexample: the claim says store() substitutes the sentinel for
every non-finite value, NaN and infinities alike; but create_document keeps
+inf unchanged (replace_nan only tests math.isnan), so an infinite Slot
value is persisted as-is, not as the 0.0 sentinel. -/
theorem C4_counterexample :
    create_document ElasticHandler_NAN_VALUE
      [⟨"rate", PyValue.float PyFloat.inf, 1⟩] =
      some ⟨[("rate", PyValue.float PyFloat.inf)], 1⟩ ∧
    PyValue.float PyFloat.inf ≠ ElasticHandler_NAN_VALUE := by
  exact ⟨by rfl, by decide⟩

/-- C4 (amended): coerce("NaN", k) yields float NaN (non-finite) for every
key; document creation substitutes the elastic sentinel 0.0 for NaN Slot
values only — an infinite value is persisted unchanged — while the Slot
itself (the input instance) retains its NaN value. -/
theorem C4_theorem :
    (∀ k : String, coerce k "NaN" = some (PyValue.float PyFloat.nan)) ∧
    (∀ (pre post : List ChannelData) (c : ChannelData),
      c.value = PyValue.float PyFloat.nan →
      ∃ d, create_document ElasticHandler_NAN_VALUE (pre ++ c :: post) = some d ∧
        d.fields.get? pre.length = some (c.attr, ElasticHandler_NAN_VALUE) ∧
        c.value = PyValue.float PyFloat.nan) ∧
    (∀ (pre post : List ChannelData) (c : ChannelData),
      c.value = PyValue.float PyFloat.inf →
      ∃ d, create_document ElasticHandler_NAN_VALUE (pre ++ c :: post) = some d ∧
        d.fields.get? pre.length = some (c.attr, PyValue.float PyFloat.inf)) := by
  refine ⟨?_, ?_, ?_⟩
  · intro k
    have h1 : archiver_literal_eval "NaN" = PyValue.float PyFloat.nan := by decide
    by_cases hk : k ∈ FLOAT_KEYS
    · simp [coerce, maybe_make_float, hk, h1, py_float_of]
    · simp [coerce, maybe_make_float, hk, h1]
  · intro pre post c hc
    refine ⟨_, create_document_eq _ _ (by simp), ?_, hc⟩
    have := get_after_append (pre.map (fun ch => (ch.attr, replace_nan ElasticHandler_NAN_VALUE ch.value)))
      (c.attr, replace_nan ElasticHandler_NAN_VALUE c.value)
      (post.map (fun ch => (ch.attr, replace_nan ElasticHandler_NAN_VALUE ch.value)))
    simp only [List.map_append, List.map_cons]
    simp only [List.length_map] at this
    rw [this, hc]
    rfl
  · intro pre post c hc
    refine ⟨_, create_document_eq _ _ (by simp), ?_⟩
    have := get_after_append (pre.map (fun ch => (ch.attr, replace_nan ElasticHandler_NAN_VALUE ch.value)))
      (c.attr, replace_nan ElasticHandler_NAN_VALUE c.value)
      (post.map (fun ch => (ch.attr, replace_nan ElasticHandler_NAN_VALUE ch.value)))
    simp only [List.length_map] at this
    simp only [List.map_append, List.map_cons]
    rw [this, hc]
    rfl

/-- C4 witness: the amended property at concrete inputs. -/
theorem C4_witness :
    coerce "time_copy_data_into_store" "NaN" = some (PyValue.float PyFloat.nan) ∧
    (∃ d, create_document ElasticHandler_NAN_VALUE
        ([] ++ (⟨"a", PyValue.float PyFloat.nan, 0⟩ : ChannelData) :: []) = some d ∧
      d.fields.get? 0 = some ("a", ElasticHandler_NAN_VALUE) ∧
      (⟨"a", PyValue.float PyFloat.nan, 0⟩ : ChannelData).value = PyValue.float PyFloat.nan) ∧
    (∃ d, create_document ElasticHandler_NAN_VALUE
        ([] ++ (⟨"b", PyValue.float PyFloat.inf, 0⟩ : ChannelData) :: []) = some d ∧
      d.fields.get? 0 = some ("b", PyValue.float PyFloat.inf)) :=
  ⟨C4_theorem.1 "time_copy_data_into_store",
   C4_theorem.2.1 [] [] _ rfl,
   C4_theorem.2.2 [] [] _ rfl⟩

/-- Numeric view of a value (bool/int/finite float), for Python equality. -/
def to_rat : PyValue → Option ℚ
  | PyValue.bool b => some (if b then 1 else 0)
  | PyValue.int n => some (n : ℚ)
  | PyValue.float (PyFloat.finite q) => some q
  | _ => none

/-- Model of Python == on program values: numeric types compare by value
(1 == 1.0 == True), strings compare by content, infinities compare equal to
themselves, and NaN is unequal to everything including itself. -/
def py_eq (a b : PyValue) : Bool :=
  match to_rat a, to_rat b with
  | some x, some y => x == y
  | _, _ =>
    match a, b with
    | PyValue.str x, PyValue.str y => x == y
    | PyValue.float PyFloat.inf, PyValue.float PyFloat.inf => true
    | PyValue.float PyFloat.ninf, PyValue.float PyFloat.ninf => true
    | _, _ => false

/-- One transformed metric item as produced by the request transformers:
raw key name, coerced value, optional pre-set attribute name. -/
structure Item where
  name : String
  value : PyValue
  attr_override : Option String := none
deriving DecidableEq, Repr

/-- Lookup of a pvproperty instance by attribute name (getattr). -/
def lookup_attr (slots : List ChannelData) (attr : String) : Option ChannelData :=
  slots.find? (fun c => c.attr == attr)

/-- prop.write(value): update the named slot's value and timestamp. -/
def write_value (slots : List ChannelData) (attr : String) (v : PyValue) (now : ℚ) :
    List ChannelData :=
  slots.map (fun c => if c.attr == attr then { c with value := v, timestamp := now } else c)

/-- The per-item loop of Archstats._update_group: look the item's key up in
key_to_attr_map (KeyError logged and skipped); fetch the pvproperty by
attribute (an absent attribute would raise AttributeError, modelled as an
error escaping the pass); when the Python != comparison finds a different
value, write it and set the changed flag.  Returns the updated slots and
the changed flag. -/
def process_items (now : ℚ) (m : List (String × String)) :
    List ChannelData → List Item → Except String (List ChannelData × Bool)
  | slots, [] => Except.ok (slots, false)
  | slots, item :: rest =>
    match m.lookup item.name with
    | none => process_items now m slots rest
    | some attr =>
      match lookup_attr slots attr with
      | none => Except.error attr
      | some c =>
        if py_eq c.value item.value then
          process_items now m slots rest
        else
          match process_items now m (write_value slots attr item.value now) rest with
          | Except.error e => Except.error e
          | Except.ok (slots2, _) => Except.ok (slots2, true)

/-- The dynamic-group state Archstats._update_group operates on. -/
structure DynGroup where
  slots : List ChannelData
  key_to_attr_map : List (String × String)
  init_document : Option Document
deriving DecidableEq, Repr

/-- Archstats._update_group: process all fetched items, then store a new
document when the changed flag is set, or when this is the group's first
pass (document count zero) and no init_document was restored.  Returns the
updated group, the updated document count, and how many times store() was
invoked for this pass. -/
def update_group (now : ℚ) (g : DynGroup) (document_count : Nat) (items : List Item) :
    Except String (DynGroup × Nat × Nat) :=
  match process_items now g.key_to_attr_map g.slots items with
  | Except.error e => Except.error e
  | Except.ok (slots2, changed) =>
    let first_document : Bool := document_count == 0
    if changed || (first_document && g.init_document.isNone) then
      Except.ok ({ g with slots := slots2 }, document_count + 1, 1)
    else
      Except.ok ({ g with slots := slots2 }, document_count, 0)

/-- restore_from_document's per-field loop (db_backed.py): skip the
timestamp field; a field whose attribute no longer exists on the group is
logged and skipped; every other field is written into its slot. -/
def restore_fields (ts : ℚ) (timestamp_key : String) :
    List ChannelData → List (String × PyValue) → List ChannelData
  | slots, [] => slots
  | slots, (attr, v) :: rest =>
    if attr == timestamp_key then restore_fields ts timestamp_key slots rest
    else
      match lookup_attr slots attr with
      | none => restore_fields ts timestamp_key slots rest
      | some _ => restore_fields ts timestamp_key (write_value slots attr v ts) rest

/-- restore_from_document (db_backed.py): doc[timestamp_key] is read first
(KeyError when absent, modelled as none), then every other field is
restored into its matching slot. -/
def restore_from_document (slots : List ChannelData) (doc : List (String × PyValue))
    (timestamp_key : String) (ts : ℚ) : Option (List ChannelData) :=
  match doc.lookup timestamp_key with
  | none => none
  | some _ => some (restore_fields ts timestamp_key slots doc)

/-- The changed flag computed by a pass (false when the pass errors). -/
def pass_changed (now : ℚ) (m : List (String × String)) (slots : List ChannelData)
    (items : List Item) : Bool :=
  match process_items now m slots items with
  | Except.ok (_, c) => c
  | Except.error _ => false

/-- Helper: looking an attribute up through an attr-preserving map. -/
theorem lookup_attr_map (slots : List ChannelData) (f : ChannelData → ChannelData)
    (hf : ∀ c, (f c).attr = c.attr) (b : String) :
    lookup_attr (slots.map f) b = (lookup_attr slots b).map f := by
  induction slots with
  | nil => rfl
  | cons c rest ih =>
    simp only [List.map_cons, lookup_attr, List.find?_cons] at ih ⊢
    by_cases h : (c.attr == b) = true
    · simp [hf c, h]
    · simp only [hf c, h]
      simpa [lookup_attr] using ih

/-- Helper: write_value does not change the attribute of any slot. -/
theorem write_value_attr_map (slots : List ChannelData) (a : String) (v : PyValue) (t : ℚ) :
    (write_value slots a v t).map ChannelData.attr = slots.map ChannelData.attr := by
  induction slots with
  | nil => rfl
  | cons c rest ih =>
    simp only [write_value, List.map_cons] at ih ⊢
    by_cases h : (c.attr == a) = true
    · simpa [h] using ih
    · simpa [h] using ih

/-- Helper: write_value preserves which attributes can be looked up. -/
theorem lookup_attr_write_isSome (slots : List ChannelData) (a : String) (v : PyValue)
    (t : ℚ) (b : String) :
    (lookup_attr (write_value slots a v t) b).isSome = (lookup_attr slots b).isSome := by
  have hf : ∀ c : ChannelData,
      ((if c.attr == a then { c with value := v, timestamp := t } else c) : ChannelData).attr
        = c.attr := by
    intro c
    by_cases h : (c.attr == a) = true <;> simp [h]
  rw [show write_value slots a v t =
        slots.map (fun c => if c.attr == a then { c with value := v, timestamp := t } else c)
      from rfl,
      lookup_attr_map _ _ hf]
  cases lookup_attr slots b <;> rfl

/-- Helper: a pass never adds or removes a slot (attribute list preserved). -/
theorem process_items_attr_map (now : ℚ) (m : List (String × String)) :
    ∀ (items : List Item) (slots slots2 : List ChannelData) (changed : Bool),
      process_items now m slots items = Except.ok (slots2, changed) →
      slots2.map ChannelData.attr = slots.map ChannelData.attr := by
  intro items
  induction items with
  | nil =>
    intro slots slots2 changed h
    simp only [process_items, Except.ok.injEq, Prod.mk.injEq] at h
    rw [← h.1]
  | cons item rest ih =>
    intro slots slots2 changed h
    cases hm : m.lookup item.name with
    | none =>
      simp only [process_items, hm] at h
      exact ih slots slots2 changed h
    | some attr =>
      simp only [process_items, hm] at h
      cases hl : lookup_attr slots attr with
      | none =>
        simp only [hl] at h
        exact Except.noConfusion h
      | some c =>
        simp only [hl] at h
        by_cases hpe : py_eq c.value item.value = true
        · rw [if_pos hpe] at h
          exact ih slots slots2 changed h
        · rw [if_neg hpe] at h
          cases hrec : process_items now m (write_value slots attr item.value now) rest with
          | error e =>
            simp only [hrec] at h
            exact Except.noConfusion h
          | ok p =>
            obtain ⟨s3, ch3⟩ := p
            simp only [hrec, Except.ok.injEq, Prod.mk.injEq] at h
            rw [← h.1, ih _ _ _ hrec]
            exact write_value_attr_map slots attr item.value now

/-- Helper: when every mapped key has a live slot, a pass cannot raise. -/
theorem process_items_ok (now : ℚ) (m : List (String × String)) :
    ∀ (items : List Item) (slots : List ChannelData),
      (∀ k a, m.lookup k = some a → (lookup_attr slots a).isSome = true) →
      ∃ slots2 changed, process_items now m slots items = Except.ok (slots2, changed) := by
  intro items
  induction items with
  | nil => exact fun slots _ => ⟨slots, false, rfl⟩
  | cons item rest ih =>
    intro slots hcov
    cases hm : m.lookup item.name with
    | none =>
      simp only [process_items, hm]
      exact ih slots hcov
    | some attr =>
      have hs := hcov _ _ hm
      obtain ⟨c, hc⟩ := Option.isSome_iff_exists.mp hs
      simp only [process_items, hm, hc]
      by_cases hpe : py_eq c.value item.value = true
      · rw [if_pos hpe]
        exact ih slots hcov
      · rw [if_neg hpe]
        have hcov2 : ∀ k a2, m.lookup k = some a2 →
            (lookup_attr (write_value slots attr item.value now) a2).isSome = true := by
          intro k a2 hk
          rw [lookup_attr_write_isSome]
          exact hcov _ _ hk
        obtain ⟨s2, ch, h2⟩ := ih _ hcov2
        rw [h2]
        exact ⟨s2, true, rfl⟩

/-- Helper: when every fetched item compares equal (Python ==) to its
slot's current value, the pass writes nothing and the changed flag stays
false. -/
theorem process_items_unchanged (now : ℚ) (m : List (String × String)) :
    ∀ (items : List Item) (slots : List ChannelData),
      (∀ k a, m.lookup k = some a → (lookup_attr slots a).isSome = true) →
      (∀ item ∈ items, ∀ a, m.lookup item.name = some a →
        ∀ c, lookup_attr slots a = some c → py_eq c.value item.value = true) →
      process_items now m slots items = Except.ok (slots, false) := by
  intro items
  induction items with
  | nil => exact fun slots _ _ => rfl
  | cons item rest ih =>
    intro slots hcov hsame
    cases hm : m.lookup item.name with
    | none =>
      simp only [process_items, hm]
      exact ih slots hcov (fun i hi => hsame i (List.mem_cons_of_mem _ hi))
    | some attr =>
      obtain ⟨c, hc⟩ := Option.isSome_iff_exists.mp (hcov _ _ hm)
      have hpe := hsame item (List.mem_cons_self _ _) attr hm c hc
      simp only [process_items, hm, hc, if_pos hpe]
      exact ih slots hcov (fun i hi => hsame i (List.mem_cons_of_mem _ hi))

/-- Helper: items whose key is unknown to the key map are exactly skipped:
a pass behaves as if they were filtered out beforehand. -/
theorem process_items_filter (now : ℚ) (m : List (String × String)) :
    ∀ (items : List Item) (slots : List ChannelData),
      process_items now m slots items =
        process_items now m slots (items.filter (fun i => (m.lookup i.name).isSome)) := by
  intro items
  induction items with
  | nil => exact fun _ => rfl
  | cons item rest ih =>
    intro slots
    cases hm : m.lookup item.name with
    | none =>
      have hfilter : (item :: rest).filter (fun i => (m.lookup i.name).isSome) =
          rest.filter (fun i => (m.lookup i.name).isSome) := by
        simp [List.filter_cons, hm]
      rw [hfilter]
      simp only [process_items, hm]
      exact ih slots
    | some attr =>
      have hfilter : (item :: rest).filter (fun i => (m.lookup i.name).isSome) =
          item :: rest.filter (fun i => (m.lookup i.name).isSome) := by
        simp [List.filter_cons, hm]
      rw [hfilter]
      cases hl : lookup_attr slots attr with
      | none => simp only [process_items, hm, hl]
      | some c =>
        simp only [process_items, hm, hl]
        by_cases hpe : py_eq c.value item.value = true
        · rw [if_pos hpe, if_pos hpe]
          exact ih slots
        · rw [if_neg hpe, if_neg hpe, ih (write_value slots attr item.value now)]

/-- Helper: restore never adds or removes a slot (attribute list preserved). -/
theorem restore_fields_attr_map (ts : ℚ) (tk : String) :
    ∀ (doc : List (String × PyValue)) (slots : List ChannelData),
      (restore_fields ts tk slots doc).map ChannelData.attr = slots.map ChannelData.attr := by
  intro doc
  induction doc with
  | nil => exact fun _ => rfl
  | cons p rest ih =>
    intro slots
    obtain ⟨a, v⟩ := p
    by_cases h1 : (a == tk) = true
    · simp only [restore_fields, h1, if_true]
      exact ih slots
    · cases hl : lookup_attr slots a with
      | none =>
        simp only [restore_fields, h1, hl, if_false, Bool.false_eq_true]
        exact ih slots
      | some c =>
        simp only [restore_fields, h1, hl, if_false, Bool.false_eq_true]
        rw [ih (write_value slots a v ts)]
        exact write_value_attr_map slots a v ts

/-- Helper: a stored field whose attribute matches no existing slot is
exactly skipped — restore behaves as if such fields (and the timestamp
field) were filtered out beforehand. -/
theorem restore_fields_filter (ts : ℚ) (tk : String) :
    ∀ (doc : List (String × PyValue)) (slots : List ChannelData),
      restore_fields ts tk slots doc =
        restore_fields ts tk slots
          (doc.filter (fun p => !(p.1 == tk) && (lookup_attr slots p.1).isSome)) := by
  intro doc
  induction doc with
  | nil => exact fun _ => rfl
  | cons p rest ih =>
    intro slots
    obtain ⟨a, v⟩ := p
    by_cases h1 : (a == tk) = true
    · have hfilter : ((a, v) :: rest).filter
          (fun p => !(p.1 == tk) && (lookup_attr slots p.1).isSome) =
          rest.filter (fun p => !(p.1 == tk) && (lookup_attr slots p.1).isSome) := by
        simp [List.filter_cons, h1]
      rw [hfilter]
      simp only [restore_fields, h1, if_true]
      exact ih slots
    · cases hl : lookup_attr slots a with
      | none =>
        have hfilter : ((a, v) :: rest).filter
            (fun p => !(p.1 == tk) && (lookup_attr slots p.1).isSome) =
            rest.filter (fun p => !(p.1 == tk) && (lookup_attr slots p.1).isSome) := by
          simp [List.filter_cons, h1, hl]
        rw [hfilter]
        simp only [restore_fields, h1, hl, if_false, Bool.false_eq_true]
        exact ih slots
      | some c =>
        have hfilter : ((a, v) :: rest).filter
            (fun p => !(p.1 == tk) && (lookup_attr slots p.1).isSome) =
            (a, v) :: rest.filter (fun p => !(p.1 == tk) && (lookup_attr slots p.1).isSome) := by
          simp [List.filter_cons, h1, hl]
        rw [hfilter]
        simp only [restore_fields, h1, hl, if_false, Bool.false_eq_true]
        rw [ih (write_value slots a v ts)]
        congr 1
        apply List.filter_congr
        intro q _
        rw [lookup_attr_write_isSome]

/-- C2: store() is invoked after a group's update exactly when the changed
flag is set or this is the group's first pass (document count zero) with no
restored init_document; consequently a restore-then-no-change pass stores
nothing, and a first-ever pass with no prior document stores exactly once
even without changes. -/
theorem C2_theorem (now : ℚ) (g : DynGroup) (count : Nat) (items : List Item)
    (hcov : ∀ k a, g.key_to_attr_map.lookup k = some a →
      (lookup_attr g.slots a).isSome = true) :
    (∃ g2 count2 stores, update_group now g count items = Except.ok (g2, count2, stores) ∧
      stores ≤ 1 ∧
      (stores = 1 ↔ (pass_changed now g.key_to_attr_map g.slots items = true ∨
        (count = 0 ∧ g.init_document = none)))) ∧
    ((∀ item ∈ items, ∀ a, g.key_to_attr_map.lookup item.name = some a →
        ∀ c, lookup_attr g.slots a = some c → py_eq c.value item.value = true) →
      (g.init_document.isSome = true →
        update_group now g count items = Except.ok (g, count, 0)) ∧
      (count = 0 → g.init_document = none →
        update_group now g count items = Except.ok (g, 1, 1))) := by
  obtain ⟨s2, ch, hp⟩ := process_items_ok now g.key_to_attr_map items g.slots hcov
  have hpc : pass_changed now g.key_to_attr_map g.slots items = ch := by
    simp [pass_changed, hp]
  constructor
  · by_cases hcond : (ch || ((count == 0) && g.init_document.isNone)) = true
    · refine ⟨{ g with slots := s2 }, count + 1, 1, ?_, le_refl 1, ?_⟩
      · simp [update_group, hp, hcond]
      · constructor
        · intro _
          have hcond2 : ch = true ∨ ((count == 0) && g.init_document.isNone) = true := by
            simpa using hcond
          rcases hcond2 with h | h
          · exact Or.inl (hpc.trans h)
          · have h12 : (count == 0) = true ∧ g.init_document.isNone = true := by
              simpa using h
            exact Or.inr ⟨by simpa using h12.1, Option.isNone_iff_eq_none.mp h12.2⟩
        · exact fun _ => rfl
    · refine ⟨{ g with slots := s2 }, count, 0, ?_, Nat.zero_le 1, ?_⟩
      · simp [update_group, hp, hcond]
      · constructor
        · intro h0
          exact absurd h0 (by simp)
        · intro hor
          exfalso
          apply hcond
          rcases hor with h | ⟨h1, h2⟩
          · simp [hpc ▸ h]
          · simp [h1, h2]
  · intro hsame
    have hp0 := process_items_unchanged now g.key_to_attr_map items g.slots hcov hsame
    constructor
    · intro hinit
      have hnone : g.init_document.isNone = false := by
        cases hd : g.init_document with
        | none => rw [hd] at hinit; cases hinit
        | some d => rfl
      simp [update_group, hp0, hnone]
    · intro hc hd
      subst hc
      simp [update_group, hp0, hd]
      rw [← hd]

/-- C2 witness: a first-ever pass with no init_document and unchanged data
stores exactly once. -/
theorem C2_witness :
    update_group 0 ⟨[⟨"a", PyValue.int 1, 0⟩], [("k", "a")], none⟩ 0
      [⟨"k", PyValue.int 1, none⟩] =
      Except.ok (⟨[⟨"a", PyValue.int 1, 0⟩], [("k", "a")], none⟩, 1, 1) := by
  have hcov : ∀ k a, (([("k", "a")] : List (String × String)).lookup k = some a) →
      (lookup_attr [⟨"a", PyValue.int 1, 0⟩] a).isSome = true := by
    intro k a h
    by_cases hk : k = "k"
    · subst hk
      simp [List.lookup] at h
      subst h
      decide
    · have hke : (k == "k") = false := by simpa using hk
      simp [List.lookup, hke] at h
  have hsame : ∀ item ∈ [(⟨"k", PyValue.int 1, none⟩ : Item)], ∀ a,
      (([("k", "a")] : List (String × String)).lookup item.name = some a) →
      ∀ c, lookup_attr [⟨"a", PyValue.int 1, 0⟩] a = some c →
      py_eq c.value item.value = true := by
    intro item hi a ha c hc
    simp only [List.mem_singleton] at hi
    subst hi
    simp [List.lookup] at ha
    subst ha
    simp [lookup_attr, List.find?] at hc
    subst hc
    decide
  exact ((C2_theorem 0 ⟨[⟨"a", PyValue.int 1, 0⟩], [("k", "a")], none⟩ 0
    [⟨"k", PyValue.int 1, none⟩] hcov).2 hsame).2 rfl rfl

/-- C3: the slot set is frozen after the build — a pass never adds or
removes a slot and behaves as if items with unknown keys were dropped
(returning normally when every key is unknown), and restore never adds or
removes a slot and behaves as if fields with no matching slot (and the
timestamp field) were dropped while the remaining fields are restored. -/
theorem C3_theorem :
    (∀ (now : ℚ) (m : List (String × String)) (slots slots2 : List ChannelData)
        (items : List Item) (changed : Bool),
      process_items now m slots items = Except.ok (slots2, changed) →
      slots2.map ChannelData.attr = slots.map ChannelData.attr) ∧
    (∀ (now : ℚ) (m : List (String × String)) (slots : List ChannelData) (items : List Item),
      process_items now m slots items =
        process_items now m slots (items.filter (fun i => (m.lookup i.name).isSome))) ∧
    (∀ (now : ℚ) (m : List (String × String)) (slots : List ChannelData) (items : List Item),
      (∀ i ∈ items, m.lookup i.name = none) →
      process_items now m slots items = Except.ok (slots, false)) ∧
    (∀ (ts : ℚ) (tk : String) (slots : List ChannelData) (doc : List (String × PyValue)),
      (restore_fields ts tk slots doc).map ChannelData.attr = slots.map ChannelData.attr) ∧
    (∀ (ts : ℚ) (tk : String) (slots : List ChannelData) (doc : List (String × PyValue)),
      restore_fields ts tk slots doc =
        restore_fields ts tk slots
          (doc.filter (fun p => !(p.1 == tk) && (lookup_attr slots p.1).isSome))) := by
  refine ⟨?_, ?_, ?_, ?_, ?_⟩
  · exact fun now m slots slots2 items changed h =>
      process_items_attr_map now m items slots slots2 changed h
  · exact fun now m slots items => process_items_filter now m items slots
  · intro now m slots items hall
    rw [process_items_filter now m items slots]
    have hnil : items.filter (fun i => (m.lookup i.name).isSome) = [] := by
      apply List.filter_eq_nil_iff.mpr
      intro i hi
      simp [hall i hi]
    rw [hnil]
    rfl
  · exact fun ts tk slots doc => restore_fields_attr_map ts tk doc slots
  · exact fun ts tk slots doc => restore_fields_filter ts tk doc slots

/-- C3 witness: the frozen-schema properties at concrete inputs — a pass
that rewrites a slot keeps the attribute set, an unknown key is skipped
without error, and restore of an unknown field keeps the slots intact. -/
theorem C3_witness :
    ([⟨"a", PyValue.int 2, 0⟩] : List ChannelData).map ChannelData.attr =
      ([⟨"a", PyValue.int 1, 0⟩] : List ChannelData).map ChannelData.attr ∧
    process_items 0 [] [⟨"a", PyValue.int 1, 0⟩] [⟨"unknown", PyValue.int 5, none⟩] =
      Except.ok ([⟨"a", PyValue.int 1, 0⟩], false) ∧
    (restore_fields 0 "@timestamp" [⟨"a", PyValue.int 1, 0⟩]
        [("zombie", PyValue.int 9)]).map ChannelData.attr =
      ([⟨"a", PyValue.int 1, 0⟩] : List ChannelData).map ChannelData.attr :=
  ⟨C3_theorem.1 0 [("k", "a")] [⟨"a", PyValue.int 1, 0⟩] [⟨"a", PyValue.int 2, 0⟩]
      [⟨"k", PyValue.int 2, none⟩] true (by rfl),
   C3_theorem.2.2.1 0 [] [⟨"a", PyValue.int 1, 0⟩] [⟨"unknown", PyValue.int 5, none⟩]
      (fun i _ => rfl),
   C3_theorem.2.2.2.1 0 "@timestamp" [⟨"a", PyValue.int 1, 0⟩] [("zombie", PyValue.int 9)]⟩

/-- The payload of a Response: the raw body when no transformer is set,
or the transformed record list. -/
inductive RespData where
  | raw (s : String)
  | records (items : List Item)
deriving DecidableEq, Repr

/-- Response dataclass (db_backed.py): fetch timestamp, raw text, data. -/
structure Response where
  timestamp : ℚ
  raw : String
  data : RespData
deriving DecidableEq, Repr

/-- Request dataclass state (db_backed.py).  The transformer callable is
passed separately to Request.make so the state stays decidable; cache_period
is Optional[float] with Python falsiness (None and 0.0 both disable the
cache). -/
structure Request where
  url : String
  last_response : Option Response
  cache_period : Option ℚ
deriving DecidableEq, Repr

/-- Python truthiness of the Optional[float] cache_period. -/
def cache_period_truthy : Option ℚ → Bool
  | none => false
  | some q => q != 0

/-- The cached-response guard of Request.make: cache_period truthy, a prior
response present, and its age strictly below the cache period. -/
def should_use_cache (req : Request) (now : ℚ) : Bool :=
  match req.cache_period, req.last_response with
  | some p, some r => (p != 0) && (now - r.timestamp < p)
  | _, _ => false

/-- Errors a Request.make call can raise: a network/transport error, the
assert response.status == 200 failure, or a transformer exception. -/
inductive MakeError where
  | network (msg : String)
  | assertion_failed (status : Nat)
  | transform (msg : String)
deriving DecidableEq, Repr

/-- The network-and-transform part of Request.make, reached when the cache
is not used: perform the request (outcome given by net: either a transport
error or a status/body pair), assert status 200, apply the transformer
(none means data = raw text), and only then cache the new Response.
Returns the new request state, the result, and whether a network call was
made. -/
def make_network_part (req : Request) (store_time : ℚ)
    (net : Except String (Nat × String))
    (transformer : Option (String → Except String (List Item))) :
    Request × Except MakeError RespData × Bool :=
  match net with
  | Except.error e => (req, Except.error (MakeError.network e), true)
  | Except.ok (status, raw_response) =>
    if status ≠ 200 then
      (req, Except.error (MakeError.assertion_failed status), true)
    else
      match transformer with
      | none =>
        ({ req with last_response := some ⟨store_time, raw_response, RespData.raw raw_response⟩ },
         Except.ok (RespData.raw raw_response), true)
      | some f =>
        match f raw_response with
        | Except.error e => (req, Except.error (MakeError.transform e), true)
        | Except.ok items =>
          ({ req with last_response := some ⟨store_time, raw_response, RespData.records items⟩ },
           Except.ok (RespData.records items), true)

/-- Request.make (db_backed.py): when a cache period is configured, a prior
response exists and its age is strictly below the period, return the cached
data without touching the network or the state; otherwise run the
network-and-transform part.  now is the age-check clock reading,
store_time the datetime.now() used to stamp the new cache entry. -/
def Request.make (req : Request) (now store_time : ℚ)
    (net : Except String (Nat × String))
    (transformer : Option (String → Except String (List Item))) :
    Request × Except MakeError RespData × Bool :=
  if should_use_cache req now then
    match req.last_response with
    | some r => (req, Except.ok r.data, false)
    | none => make_network_part req store_time net transformer
  else
    make_network_part req store_time net transformer

/-- C8: with a configured (positive) cache TTL, Request.make serves the
cached data with no network call whenever a prior response is younger than
the TTL; otherwise it makes the network call, and on success caches
(store_time, raw, transformed records) and returns the fresh records; the
refreshed cache again short-circuits any request made within the TTL. -/
theorem C8_theorem (req : Request) (p : ℚ) (now store_time : ℚ)
    (net : Except String (Nat × String)) (tf : String → Except String (List Item))
    (raw : String) (items : List Item)
    (hp : req.cache_period = some p) (hpos : 0 < p) :
    (∀ r, req.last_response = some r → now - r.timestamp < p →
      Request.make req now store_time net (some tf) = (req, Except.ok r.data, false)) ∧
    (should_use_cache req now = false →
      (Request.make req now store_time net (some tf)).2.2 = true) ∧
    (should_use_cache req now = false → net = Except.ok (200, raw) →
      tf raw = Except.ok items →
      Request.make req now store_time net (some tf) =
        ({ req with last_response := some ⟨store_time, raw, RespData.records items⟩ },
         Except.ok (RespData.records items), true)) ∧
    (∀ req2 r2, req2.cache_period = some p → req2.last_response = some r2 →
      ∀ now2, now2 - r2.timestamp < p →
      Request.make req2 now2 store_time net (some tf) = (req2, Except.ok r2.data, false)) := by
  have hcache : ∀ (rq : Request) (r : Response), rq.cache_period = some p →
      rq.last_response = some r → ∀ t, t - r.timestamp < p →
      Request.make rq t store_time net (some tf) = (rq, Except.ok r.data, false) := by
    intro rq r hq hr t ht
    have hne : (p != 0) = true := by
      simp only [bne_iff_ne, ne_eq]
      intro h0
      rw [h0] at hpos
      exact lt_irrefl 0 hpos
    have hsc : should_use_cache rq t = true := by
      simp only [should_use_cache, hq, hr, hne, Bool.true_and, decide_eq_true_eq]
      exact ht
    simp only [Request.make, hsc, if_true, hr]
  refine ⟨?_, ?_, ?_, ?_⟩
  · intro r hr ht
    exact hcache req r hp hr now ht
  · intro hsc
    simp only [Request.make, hsc, Bool.false_eq_true, if_false]
    cases net with
    | error e => rfl
    | ok sr =>
      obtain ⟨status, body⟩ := sr
      by_cases hst : status ≠ 200
      · simp [make_network_part, hst]
      · simp only [make_network_part, hst, if_false]
        cases tf body with
        | error e => rfl
        | ok its => rfl
  · intro hsc hnet htf
    subst hnet
    simp only [Request.make, hsc, Bool.false_eq_true, if_false, make_network_part,
      ne_eq, not_true_eq_false, if_false, htf]
  · intro req2 r2 hq2 hr2 now2 ht2
    exact hcache req2 r2 hq2 hr2 now2 ht2

/-- C8 witness: a cached response younger than the TTL is served without a
network call, and with a stale cache the refreshed state short-circuits the
next request inside the TTL. -/
theorem C8_witness :
    Request.make ⟨"u", some ⟨10, "body", RespData.records []⟩, some 2⟩ 11 11
      (Except.error "down") (some (fun _ => Except.ok [])) =
      (⟨"u", some ⟨10, "body", RespData.records []⟩, some 2⟩,
       Except.ok (RespData.records []), false) ∧
    Request.make ⟨"u", none, some 2⟩ 0 0 (Except.ok (200, "body"))
      (some (fun _ => Except.ok [])) =
      (⟨"u", some ⟨0, "body", RespData.records []⟩, some 2⟩,
       Except.ok (RespData.records []), true) := by
  constructor
  · have h := C8_theorem ⟨"u", some ⟨10, "body", RespData.records []⟩, some 2⟩ 2 11 11
      (Except.error "down") (fun _ => Except.ok []) "body" [] rfl (by norm_num)
    exact h.1 ⟨10, "body", RespData.records []⟩ rfl (by norm_num)
  · have h := C8_theorem ⟨"u", none, some 2⟩ 2 0 0 (Except.ok (200, "body"))
      (fun _ => Except.ok []) "body" [] rfl (by norm_num)
    exact h.2.2.1 rfl rfl rfl

/-- Helper: the network-and-transform part leaves the request state
untouched whenever it returns an error. -/
theorem make_network_unchanged (req : Request) (store_time : ℚ)
    (net : Except String (Nat × String))
    (transformer : Option (String → Except String (List Item))) (e : MakeError)
    (herr : (make_network_part req store_time net transformer).2.1 = Except.error e) :
    (make_network_part req store_time net transformer).1 = req := by
  cases net with
  | error msg => rfl
  | ok sr =>
    obtain ⟨status, body⟩ := sr
    by_cases hst : status ≠ 200
    · simp [make_network_part, hst]
    · simp only [make_network_part, hst, if_false] at herr ⊢
      cases transformer with
      | none => simp at herr
      | some f =>
        cases hf : f body with
        | error msg => simp [make_network_part, hf]
        | ok its => simp [hf] at herr

/-- C10: Request.make is atomic with respect to its cache — whenever the
result is an error (network failure, non-200 status, or transformer
exception), the returned request state is exactly the input state, so no
partial response is ever cached. -/
theorem C10_theorem (req : Request) (now store_time : ℚ)
    (net : Except String (Nat × String))
    (transformer : Option (String → Except String (List Item)))
    (e : MakeError)
    (herr : (Request.make req now store_time net transformer).2.1 = Except.error e) :
    (Request.make req now store_time net transformer).1 = req := by
  by_cases hsc : should_use_cache req now = true
  · cases hr : req.last_response with
    | none =>
      simp only [Request.make, hsc, if_true, hr] at herr ⊢
      exact make_network_unchanged req store_time net transformer e herr
    | some r =>
      simp only [Request.make, hsc, if_true, hr] at herr ⊢
  · have hsc2 : should_use_cache req now = false := by
      cases h : should_use_cache req now with
      | true => exact absurd h hsc
      | false => rfl
    simp only [Request.make, hsc2, Bool.false_eq_true, if_false] at herr ⊢
    exact make_network_unchanged req store_time net transformer e herr

/-- C10 witness: a 500 response leaves the cached state untouched. -/
theorem C10_witness :
    (Request.make ⟨"u", none, some 2⟩ 0 0 (Except.ok (500, "oops"))
      (some (fun _ => Except.ok []))).1 = ⟨"u", none, some 2⟩ :=
  C10_theorem ⟨"u", none, some 2⟩ 0 0 (Except.ok (500, "oops"))
    (some (fun _ => Except.ok [])) (MakeError.assertion_failed 500) rfl

/-- Model of Python str.isidentifier (ASCII fragment): first character a
letter or underscore, the rest letters, digits or underscores. -/
def isidentifier (s : String) : Bool :=
  match s.data with
  | [] => false
  | c :: rest => (c.isAlpha || c == '_') && rest.all (fun d => d.isAlphanum || d == '_')

/-- attr.replace(":", "_"): map every colon to an underscore. -/
def replace_colons (s : String) : String :=
  String.mk (s.data.map (fun c => if c == ':' then '_' else c))

/-- A dynamically created pvproperty: PV name and initial value. -/
structure PvProp where
  name : String
  value : PyValue
deriving DecidableEq, Repr

/-- JSONRequestGroup.create_pvproperty: the attribute name is the item's
attr override or underscore(name) (u models inflection.underscore), with
colons replaced; when the result is not a valid identifier the fallback is
"json_" + abs(hash(attr)) — pyhash models the process's built-in string
hash — and a warning is logged. -/
def create_pvproperty (u : String → String) (pyhash : String → Int) (item : Item) :
    String × PvProp :=
  let attr0 :=
    match item.attr_override with
    | some a => a
    | none => u item.name
  let attr1 := replace_colons attr0
  if isidentifier attr1 then (attr1, ⟨item.name, item.value⟩)
  else ("json_" ++ toString (pyhash attr1).natAbs, ⟨item.name, item.value⟩)

/-- The attribute name create_pvproperty assigns to an item. -/
def attr_of (u : String → String) (pyhash : String → Int) (item : Item) : String :=
  (create_pvproperty u pyhash item).1

/-- An entry of the class dict under construction: the reserved requests
and key_to_attr_map entries, or a created pvproperty. -/
inductive ClsEntry where
  | requests_field
  | key_map_field
  | prop (p : PvProp)
deriving DecidableEq, Repr

/-- Python dict insertion: overwrite in place when the key is present,
append when new. -/
def dict_insert {α : Type} (d : List (String × α)) (k : String) (v : α) :
    List (String × α) :=
  if (d.lookup k).isSome then
    d.map (fun q => cond (q.1 == k) (k, v) q)
  else d ++ [(k, v)]

/-- The accumulating state of from_request: the clsdict entries (initially
holding the reserved requests and key_to_attr_map keys), the
key-to-attribute map, and the attribute-shadowed warnings logged so far. -/
structure ClsDict where
  entries : List (String × ClsEntry)
  key_to_attr_map : List (String × String)
  shadow_warnings : List String
deriving DecidableEq, Repr

/-- The clsdict from_request starts from: dict(requests=..., key_to_attr_map={}). -/
def initial_clsdict : ClsDict :=
  { entries := [("requests", ClsEntry.requests_field), ("key_to_attr_map", ClsEntry.key_map_field)],
    key_to_attr_map := [],
    shadow_warnings := [] }

/-- The per-item body of the from_request loop: create the pvproperty, log
an attribute-shadowed warning when the attribute is already a clsdict key,
insert (overwriting) into the clsdict, and record key -> attribute. -/
def add_item (u : String → String) (pyhash : String → Int) (st : ClsDict) (item : Item) :
    ClsDict :=
  let ap := create_pvproperty u pyhash item
  { entries := dict_insert st.entries ap.1 (ClsEntry.prop ap.2),
    key_to_attr_map := dict_insert st.key_to_attr_map item.name ap.1,
    shadow_warnings :=
      if (st.entries.lookup ap.1).isSome then st.shadow_warnings ++ [ap.1]
      else st.shadow_warnings }

/-- The request loop of JSONRequestGroup.from_request: each fetch outcome
(await request.make) is consumed in order with no exception handling — an
error propagates immediately, aborting the class construction; a successful
fetch's items are folded into the clsdict. -/
def from_request_loop (u : String → String) (pyhash : String → Int) :
    ClsDict → List (Except String (List Item)) → Except String ClsDict
  | st, [] => Except.ok st
  | _, Except.error e :: _ => Except.error e
  | st, Except.ok items :: rest =>
    from_request_loop u pyhash (items.foldl (add_item u pyhash) st) rest

/-- JSONRequestGroup.from_request over the per-request fetch outcomes. -/
def from_request (u : String → String) (pyhash : String → Int)
    (fetches : List (Except String (List Item))) : Except String ClsDict :=
  from_request_loop u pyhash initial_clsdict fetches

/-- C1 counterexample: a failed fetch of the second source makes the whole
from_request call fail — no class is produced at all, so the Group is NOT
constructed with the first source's slots as the claim states. -/
theorem C1_counterexample :
    from_request (fun s => s) (fun _ => 0)
      [Except.ok [⟨"m1", PyValue.int 1, none⟩], Except.error "FetchError: status 500"] =
      Except.error "FetchError: status 500" := by
  rfl

/-- C1 (amended): from_request has no per-source error handling — the first
failing source's error propagates out of the build, whatever sources
succeeded before it, and no Group class is constructed for this build. -/
theorem C1_theorem (u : String → String) (pyhash : String → Int)
    (pre : List (List Item)) (e : String) (post : List (Except String (List Item))) :
    from_request u pyhash (pre.map Except.ok ++ Except.error e :: post) =
      Except.error e := by
  have hloop : ∀ (pre2 : List (List Item)) (st : ClsDict),
      from_request_loop u pyhash st (pre2.map Except.ok ++ Except.error e :: post) =
        Except.error e := by
    intro pre2
    induction pre2 with
    | nil => exact fun st => rfl
    | cons items rest ih =>
      intro st
      simp only [List.map_cons, List.cons_append, from_request_loop]
      exact ih _
  exact hloop pre initial_clsdict

/-- Helper: lookup through the overwrite-k map of dict_insert. -/
theorem lookup_map_overwrite {α : Type} (k : String) (v : α) :
    ∀ d : List (String × α),
      (d.map (fun q => cond (q.1 == k) (k, v) q)).lookup k =
        if (d.lookup k).isSome then some v else none := by
  intro d
  induction d with
  | nil => rfl
  | cons q t ih =>
    obtain ⟨a, b⟩ := q
    by_cases hak : a = k
    · subst hak
      simp [List.lookup]
    · have h1 : (a == k) = false := by simpa using hak
      have h2 : (k == a) = false := by simpa using fun hh => hak hh.symm
      simp only [List.map_cons, h1, cond_false, List.lookup, h2]
      exact ih

/-- Helper: lookup of a different key is unchanged by the overwrite map. -/
theorem lookup_map_overwrite_other {α : Type} (k : String) (v : α) (a : String)
    (hne : a ≠ k) :
    ∀ d : List (String × α),
      (d.map (fun q => cond (q.1 == k) (k, v) q)).lookup a = d.lookup a := by
  have hak : (a == k) = false := by simpa using hne
  intro d
  induction d with
  | nil => rfl
  | cons q t ih =>
    obtain ⟨b, w⟩ := q
    by_cases hbk : b = k
    · subst hbk
      simp only [List.map_cons, beq_self_eq_true, cond_true, List.lookup, hak]
      exact ih
    · have h1 : (b == k) = false := by simpa using hbk
      simp only [List.map_cons, h1, cond_false, List.lookup]
      cases hab : (a == b) with
      | true => rfl
      | false => exact ih

/-- Helper: appending a fresh key does not change other lookups. -/
theorem lookup_append_single_other {α : Type} (k : String) (v : α) (a : String)
    (hne : a ≠ k) :
    ∀ d : List (String × α), (d ++ [(k, v)]).lookup a = d.lookup a := by
  have hak : (a == k) = false := by simpa using hne
  intro d
  induction d with
  | nil => simp [List.lookup, hak]
  | cons q t ih =>
    obtain ⟨b, w⟩ := q
    simp only [List.cons_append, List.lookup]
    cases hab : (a == b) with
    | true => rfl
    | false => exact ih

/-- Helper: appending a key absent from d makes it found. -/
theorem lookup_append_single_self {α : Type} (k : String) (v : α) :
    ∀ d : List (String × α), d.lookup k = none → (d ++ [(k, v)]).lookup k = some v := by
  intro d
  induction d with
  | nil => simp [List.lookup]
  | cons q t ih =>
    obtain ⟨b, w⟩ := q
    intro hnone
    rw [List.lookup] at hnone
    cases hkb : (k == b) with
    | true => rw [hkb] at hnone; cases hnone
    | false =>
      rw [hkb] at hnone
      simp only [List.cons_append, List.lookup, hkb]
      exact ih hnone

/-- Helper: looking up the just-inserted key yields the new value. -/
theorem dict_insert_lookup_self {α : Type} (d : List (String × α)) (k : String) (v : α) :
    (dict_insert d k v).lookup k = some v := by
  by_cases h : (d.lookup k).isSome = true
  · simp only [dict_insert, h, if_true]
    rw [lookup_map_overwrite k v d, if_pos h]
  · have hnone : d.lookup k = none := by
      cases hd : d.lookup k with
      | none => rfl
      | some b => rw [hd] at h; simp at h
    simp only [dict_insert, h, Bool.false_eq_true, if_false]
    exact lookup_append_single_self k v d hnone

/-- Helper: inserting key k does not affect the lookup of a different key. -/
theorem dict_insert_lookup_other {α : Type} (d : List (String × α)) (k : String) (v : α)
    (a : String) (hne : a ≠ k) :
    (dict_insert d k v).lookup a = d.lookup a := by
  by_cases h : (d.lookup k).isSome = true
  · simp only [dict_insert, h, if_true]
    exact lookup_map_overwrite_other k v a hne d
  · simp only [dict_insert, h, Bool.false_eq_true, if_false]
    exact lookup_append_single_other k v a hne d

/-- Helper: insertion keeps every present key present. -/
theorem dict_insert_isSome_mono {α : Type} (d : List (String × α)) (k : String) (v : α)
    (a : String) (h : (d.lookup a).isSome = true) :
    ((dict_insert d k v).lookup a).isSome = true := by
  by_cases hak : a = k
  · subst hak
    rw [dict_insert_lookup_self]
    rfl
  · rw [dict_insert_lookup_other d k v a hak]
    exact h

/-- Helper: after add_item, the item's attribute maps to its pvproperty. -/
theorem add_item_lookup_self (u : String → String) (pyhash : String → Int)
    (st : ClsDict) (item : Item) :
    (add_item u pyhash st item).entries.lookup (attr_of u pyhash item) =
      some (ClsEntry.prop (create_pvproperty u pyhash item).2) := by
  simp only [add_item, attr_of]
  exact dict_insert_lookup_self st.entries (create_pvproperty u pyhash item).1
    (ClsEntry.prop (create_pvproperty u pyhash item).2)

/-- Helper: add_item leaves the lookup of any other attribute unchanged. -/
theorem add_item_lookup_other (u : String → String) (pyhash : String → Int)
    (st : ClsDict) (item : Item) (a : String) (hne : a ≠ attr_of u pyhash item) :
    (add_item u pyhash st item).entries.lookup a = st.entries.lookup a := by
  simp only [add_item, attr_of] at hne ⊢
  exact dict_insert_lookup_other st.entries (create_pvproperty u pyhash item).1
    (ClsEntry.prop (create_pvproperty u pyhash item).2) a hne

/-- Helper: add_item keeps every present clsdict key present. -/
theorem add_item_isSome_mono (u : String → String) (pyhash : String → Int)
    (st : ClsDict) (item : Item) (a : String)
    (h : (st.entries.lookup a).isSome = true) :
    ((add_item u pyhash st item).entries.lookup a).isSome = true := by
  simp only [add_item]
  exact dict_insert_isSome_mono st.entries (create_pvproperty u pyhash item).1
    (ClsEntry.prop (create_pvproperty u pyhash item).2) a h

/-- Helper: add_item never drops an already-logged warning. -/
theorem add_item_warn_mono (u : String → String) (pyhash : String → Int)
    (st : ClsDict) (item : Item) (w : String) (h : w ∈ st.shadow_warnings) :
    w ∈ (add_item u pyhash st item).shadow_warnings := by
  simp only [add_item]
  by_cases hcond : (st.entries.lookup (create_pvproperty u pyhash item).1).isSome = true
  · rw [if_pos hcond]
    exact List.mem_append_left _ h
  · rw [if_neg hcond]
    exact h

/-- Helper: adding an item whose attribute is already a clsdict key logs
the attribute-shadowed warning. -/
theorem add_item_warn_shadow (u : String → String) (pyhash : String → Int)
    (st : ClsDict) (item : Item)
    (h : (st.entries.lookup (attr_of u pyhash item)).isSome = true) :
    attr_of u pyhash item ∈ (add_item u pyhash st item).shadow_warnings := by
  simp only [attr_of] at h
  simp only [add_item, attr_of, if_pos h]
  exact List.mem_append_right _ (List.mem_singleton.mpr rfl)

/-- Helper: folding add_item keeps every present clsdict key present. -/
theorem foldl_add_item_isSome_mono (u : String → String) (pyhash : String → Int) :
    ∀ (l : List Item) (st : ClsDict) (a : String),
      (st.entries.lookup a).isSome = true →
      (((l.foldl (add_item u pyhash) st).entries.lookup a)).isSome = true := by
  intro l
  induction l with
  | nil => exact fun st a h => h
  | cons j rest ih =>
    intro st a h
    exact ih _ a (add_item_isSome_mono u pyhash st j a h)

/-- Helper: folding add_item never drops a logged warning. -/
theorem foldl_add_item_warn_mono (u : String → String) (pyhash : String → Int) :
    ∀ (l : List Item) (st : ClsDict) (w : String),
      w ∈ st.shadow_warnings →
      w ∈ (l.foldl (add_item u pyhash) st).shadow_warnings := by
  intro l
  induction l with
  | nil => exact fun st w h => h
  | cons j rest ih =>
    intro st w h
    exact ih _ w (add_item_warn_mono u pyhash st j w h)

/-- Helper: items whose attribute differs from a never touch a's entry. -/
theorem foldl_add_item_lookup_nocollide (u : String → String) (pyhash : String → Int) :
    ∀ (l : List Item) (st : ClsDict) (a : String),
      (∀ j ∈ l, attr_of u pyhash j ≠ a) →
      (l.foldl (add_item u pyhash) st).entries.lookup a = st.entries.lookup a := by
  intro l
  induction l with
  | nil => exact fun st a _ => rfl
  | cons j rest ih =>
    intro st a hne
    rw [List.foldl_cons, ih _ a (fun j2 hj2 => hne j2 (List.mem_cons_of_mem _ hj2))]
    exact add_item_lookup_other u pyhash st j a
      (fun hh => hne j (List.mem_cons_self _ _) hh.symm)

/-- C7: when two distinct raw keys normalize to the same attribute during
one build, the retained pvproperty is the later item's (last write wins)
and an attribute-shadowed warning is logged — colliding keys are never
silently merged. -/
theorem C7_theorem (u : String → String) (pyhash : String → Int) (st : ClsDict)
    (l1 : List Item) (i1 : Item) (l2 : List Item) (i2 : Item) (l3 : List Item)
    (hcol : attr_of u pyhash i1 = attr_of u pyhash i2)
    (hlast : ∀ j ∈ l3, attr_of u pyhash j ≠ attr_of u pyhash i2) :
    ((l1 ++ i1 :: l2 ++ i2 :: l3).foldl (add_item u pyhash) st).entries.lookup
        (attr_of u pyhash i2) =
      some (ClsEntry.prop (create_pvproperty u pyhash i2).2) ∧
    attr_of u pyhash i2 ∈
      ((l1 ++ i1 :: l2 ++ i2 :: l3).foldl (add_item u pyhash) st).shadow_warnings := by
  have hshape : l1 ++ i1 :: l2 ++ i2 :: l3 = (l1 ++ i1 :: l2) ++ (i2 :: l3) := by
    simp
  have hsplit : (l1 ++ i1 :: l2 ++ i2 :: l3).foldl (add_item u pyhash) st =
      l3.foldl (add_item u pyhash)
        (add_item u pyhash ((l1 ++ i1 :: l2).foldl (add_item u pyhash) st) i2) := by
    rw [hshape, List.foldl_append]
    rfl
  have hst1 : (l1 ++ i1 :: l2).foldl (add_item u pyhash) st =
      l2.foldl (add_item u pyhash) (add_item u pyhash (l1.foldl (add_item u pyhash) st) i1) := by
    rw [List.foldl_append]
    rfl
  have hpresent : (((l1 ++ i1 :: l2).foldl (add_item u pyhash) st).entries.lookup
      (attr_of u pyhash i2)).isSome = true := by
    rw [hst1]
    apply foldl_add_item_isSome_mono
    rw [← hcol, add_item_lookup_self]
    rfl
  constructor
  · rw [hsplit, foldl_add_item_lookup_nocollide u pyhash l3 _ _ hlast,
      add_item_lookup_self]
  · rw [hsplit]
    exact foldl_add_item_warn_mono u pyhash l3 _ _
      (add_item_warn_shadow u pyhash _ i2 hpresent)

/-- C7 witness: two items with the same attribute override collide — the
second item's pvproperty is retained and the collision is logged. -/
theorem C7_witness :
    (([⟨"k1", PyValue.int 1, some "dup"⟩, ⟨"k2", PyValue.int 2, some "dup"⟩] : List Item).foldl
        (add_item (fun s => s) (fun _ => 0)) initial_clsdict).entries.lookup "dup" =
      some (ClsEntry.prop ⟨"k2", PyValue.int 2⟩) ∧
    "dup" ∈ (([⟨"k1", PyValue.int 1, some "dup"⟩, ⟨"k2", PyValue.int 2, some "dup"⟩] : List Item).foldl
        (add_item (fun s => s) (fun _ => 0)) initial_clsdict).shadow_warnings :=
  C7_theorem (fun s => s) (fun _ => 0) initial_clsdict
    [] ⟨"k1", PyValue.int 1, some "dup"⟩ [] ⟨"k2", PyValue.int 2, some "dup"⟩ []
    rfl (fun j hj => absurd hj (List.not_mem_nil j))

/-- Modelled from the spec: the fallback-identifier hash must be stable
across process restarts, but hash() — the built-in the code calls — is
CPython's per-process randomized string hash (PYTHONHASHSEED); modelled
here as a function of the process hash seed and the string. -/
def randomized_str_hash (seed : Nat) (s : String) : Int :=
  s.data.foldl (fun a c => a * 31 + (c.toNat : Int)) (seed : Int)

/-- C5: the fallback identifier is json_ + abs(hash(attr)) computed with
the process-seeded built-in hash, so two runs with different hash seeds
assign different fallback identifiers to the same non-identifier key —
the cross-restart determinism the claim states does not hold. -/
theorem C5_theorem :
    attr_of (fun s => s) (randomized_str_hash 0) ⟨"1metric", PyValue.int 1, none⟩ ≠
      attr_of (fun s => s) (randomized_str_hash 1) ⟨"1metric", PyValue.int 1, none⟩ := by
  decide

/-- One observable effect of the updater loop body. -/
inductive Action where
  | update_pass (group : Nat)
  | log_exception
  | sleep (seconds : ℚ)
deriving DecidableEq, Repr

/-- Archstats.update_rate (class attribute): 60 seconds between passes. -/
def update_rate : ℚ := 60

/-- Whether the while-True body lets the loop run another iteration. -/
inductive LoopControl where
  | continue_loop
  | terminate
deriving DecidableEq, Repr

/-- The for-loop inside updater's try block: update each registered group
in order with a 0.1 s yield sleep after each; an exception during a group's
update aborts the pass with that error (to be caught by the body). -/
def run_pass (pass_result : Nat → Except String Unit) :
    List Nat → List Action × Option String
  | [] => ([], none)
  | g :: rest =>
    match pass_result g with
    | Except.error e => ([Action.update_pass g], some e)
    | Except.ok _ =>
      let r := run_pass pass_result rest
      (Action.update_pass g :: Action.sleep (1 / 10) :: r.1, r.2)

/-- One iteration of Archstats.updater's while-True body: run the pass
inside try; on any exception log it and sleep the 10 s backoff; then sleep
update_rate.  The body has no break, return or uncaught raise, so it always
yields continue_loop. -/
def updater_body (pass_result : Nat → Except String Unit) (groups : List Nat) :
    List Action × LoopControl :=
  let r := run_pass pass_result groups
  match r.2 with
  | some _ =>
    (r.1 ++ [Action.log_exception, Action.sleep 10, Action.sleep update_rate],
     LoopControl.continue_loop)
  | none => (r.1 ++ [Action.sleep update_rate], LoopControl.continue_loop)

/-- The supervising loop as a stream of iterations: iteration n's trace and
control outcome, given each iteration's per-group pass outcomes. -/
def updater_run (pass_results : Nat → Nat → Except String Unit) (groups : List Nat)
    (n : Nat) : List Action × LoopControl :=
  updater_body (pass_results n) groups

/-- C6: every iteration of the updater loop ends in continue_loop — for
any pass outcomes, at any iteration index, the loop is never allowed to
terminate — and when an iteration's pass raises, the iteration's trace is
the partial pass followed by the logged exception and the 10 s backoff
sleep (longer than the 0.1 s inter-group yield) before the regular
update_rate sleep. -/
theorem C6_theorem (pass_results : Nat → Nat → Except String Unit) (groups : List Nat)
    (n : Nat) :
    (updater_run pass_results groups n).2 = LoopControl.continue_loop ∧
    (∀ e, (run_pass (pass_results n) groups).2 = some e →
      (updater_run pass_results groups n).1 =
        (run_pass (pass_results n) groups).1 ++
          [Action.log_exception, Action.sleep 10, Action.sleep update_rate] ∧
      (1 / 10 : ℚ) < 10) := by
  constructor
  · cases h : (run_pass (pass_results n) groups).2 with
    | none => simp [updater_run, updater_body, h]
    | some e => simp [updater_run, updater_body, h]
  · intro e he
    simp only [updater_run, updater_body, he]
    exact ⟨trivial, by norm_num⟩

/-- C6 witness: an iteration whose only group's update raises still
continues, after logging and backing off. -/
theorem C6_witness :
    (updater_run (fun _ _ => Except.error "boom") [0] 0).2 = LoopControl.continue_loop ∧
    ((updater_run (fun _ _ => Except.error "boom") [0] 0).1 =
      (run_pass (fun _ => Except.error "boom") [0]).1 ++
        [Action.log_exception, Action.sleep 10, Action.sleep update_rate] ∧
      (1 / 10 : ℚ) < 10) :=
  ⟨(C6_theorem (fun _ _ => Except.error "boom") [0] 0).1,
   (C6_theorem (fun _ _ => Except.error "boom") [0] 0).2 "boom" rfl⟩

end Archstats
